import Mathlib

/-!
Shallow embedding of `src/main.py`, an MTG card-search proxy over the
Scryfall REST API, together with proofs about its nine tool handlers.

Modelling conventions:
* A Python `dict` field that may be absent is an `Option`; `dict.get(k, d)`
  is `Option.getD`, while bracket access `d[k]` is `pyGet`, which fails with
  the Python `str(KeyError(k))` text (`'k'`).
* An outbound HTTP call is summarised by an `UpstreamResult`: either the
  client raised an exception (`exn msg`), or a response arrived with a
  status code and a body whose `.json()` parse either succeeds with a typed
  record or raises (`Except.error msg`).
* `try: ... except Exception as e: ...` becomes a computation in
  `Except String` run through `runCaught`, whose error branch is the
  handler's `except` block.
* `httpx.Response.raise_for_status` raises exactly on status codes >= 400;
  the text of that exception is abstracted by `statusErrorMsg`.
* Each handler additionally returns the ordered trace of its effects: the
  `asyncio.sleep(0.075)` calls (75 ms) and the outbound requests, in the
  order the code awaits them.  The code awaits each call before issuing the
  next, so a linear trace is faithful.
* JSON numbers (Python floats such as `cmc`) are modelled as exact
  rationals; the handlers only pass them through, never compute with them.
-/

/-- An outbound HTTP request: URL and query parameters in order. -/
structure HttpRequest where
  url : String
  params : List (String × String)
  deriving DecidableEq

/-- One awaited effect of a handler: a sleep (in milliseconds) or an
outbound HTTP request. -/
inductive Event where
  | sleep (ms : Nat)
  | request (r : HttpRequest)
  deriving DecidableEq

/-- Outcome of one outbound call: the client raised (`exn`), or a response
arrived with a status code and a body whose JSON parse may itself raise. -/
inductive UpstreamResult (β : Type) where
  | exn (msg : String)
  | resp (status : Nat) (body : Except String β)

/-- Python renders `str(KeyError(k))` as the repr of the key, `'k'`. -/
def keyErrorStr (k : String) : String := "'" ++ k ++ "'"

/-- Bracket access `d[k]` on a dict: the value when present, otherwise a
`KeyError`. -/
def pyGet {α : Type} (o : Option α) (key : String) : Except String α :=
  match o with
  | some v => Except.ok v
  | none => Except.error (keyErrorStr key)

/-- Stand-in for the message of `httpx.HTTPStatusError`. -/
def statusErrorMsg (status : Nat) : String :=
  "HTTP status error: " ++ toString status

/-- Model of `response.raise_for_status()`: raises exactly when the status
code is 400 or above. -/
def raiseForStatus (status : Nat) : Except String Unit :=
  if 400 ≤ status then Except.error (statusErrorMsg status) else Except.ok ()

/-- Run a `try` body under `except Exception as e: return handler(str(e))`. -/
def runCaught {α : Type} (r : Except String α) (handler : String → α) : α :=
  match r with
  | Except.ok a => a
  | Except.error m => handler m

/-! JSON records as the handlers consume them.  Every field a handler reads
is `Option`al, since the upstream body is untyped JSON. -/

/-- The `image_uris` sub-object of a card record. -/
structure ImageUris where
  normal : Option String
  deriving DecidableEq

/-- A Scryfall card JSON object, restricted to the keys the handlers read. -/
structure CardData where
  name : Option String
  type_line : Option String
  oracle_text : Option String
  mana_cost : Option String
  cmc : Option Rat
  image_uris : Option ImageUris
  id : Option String
  set_name : Option String
  set : Option String
  rarity : Option String
  deriving DecidableEq

/-- Body of `/cards/search`: a card list plus paging metadata. -/
structure CardListBody where
  data : Option (List CardData)
  total_cards : Option Int
  has_more : Option Bool
  deriving DecidableEq

/-- One ruling JSON object. -/
structure RulingJson where
  source : Option String
  published_at : Option String
  comment : Option String
  deriving DecidableEq

/-- Body of `/cards/{id}/rulings`. -/
structure RulingsBody where
  data : Option (List RulingJson)
  deriving DecidableEq

/-- A Scryfall set JSON object, restricted to the keys the handlers read. -/
structure SetJson where
  code : Option String
  name : Option String
  set_type : Option String
  released_at : Option String
  card_count : Option Int
  id : Option String
  block : Option String
  parent_set_code : Option String
  digital : Option Bool
  foil_only : Option Bool
  icon_svg_uri : Option String
  deriving DecidableEq

/-- Body of `/sets`. -/
structure SetsBody where
  data : Option (List SetJson)
  deriving DecidableEq

/-- One symbology JSON object. -/
structure SymbolJson where
  symbol : Option String
  loose_variant : Option String
  english : Option String
  transposable : Option Bool
  represents_mana : Option Bool
  appears_in_mana_costs : Option Bool
  mana_value : Option Rat
  colors : Option (List String)
  deriving DecidableEq

/-- Body of `/symbology`. -/
structure SymbologyBody where
  data : Option (List SymbolJson)
  deriving DecidableEq

/-- Body of `/catalog/{type}`. -/
structure CatalogBody where
  data : Option (List String)
  deriving DecidableEq

/-! Input and output schemas, mirroring the pydantic models of `main.py`. -/

structure CardSearchInput where
  name : String
  deriving DecidableEq

structure CardSearchOutput where
  name : String
  type_line : String
  oracle_text : String
  image_url : String
  deriving DecidableEq

/-- Input of `search_cards`; `unique`, `order` and `page` carry the pydantic
defaults `"cards"`, `"name"`, `1` when the caller omits them. -/
structure CardsSearchInput where
  query : String
  unique : String
  order : String
  page : Int
  deriving DecidableEq

structure CardResult where
  name : String
  type_line : String
  oracle_text : Option String
  mana_cost : Option String
  cmc : Option Rat
  image_url : Option String
  scryfall_id : String
  deriving DecidableEq

structure CardsSearchOutput where
  cards : List CardResult
  total_cards : Int
  has_more : Bool
  deriving DecidableEq

structure CardRulingsInput where
  scryfall_id : String
  deriving DecidableEq

structure Ruling where
  source : String
  published_at : String
  comment : String
  deriving DecidableEq

structure CardRulingsOutput where
  card_name : String
  scryfall_id : String
  rulings : List Ruling
  deriving DecidableEq

structure SetInfo where
  code : String
  name : String
  set_type : String
  released_at : Option String
  card_count : Int
  scryfall_id : String
  deriving DecidableEq

structure SetsOutput where
  sets : List SetInfo
  total_sets : Int
  deriving DecidableEq

structure CardSymbol where
  symbol : String
  loose_variant : Option String
  english : String
  transposable : Bool
  represents_mana : Bool
  appears_in_mana_costs : Bool
  mana_value : Option Rat
  colors : List String
  deriving DecidableEq

structure CardSymbolsOutput where
  symbols : List CardSymbol
  total_symbols : Int
  deriving DecidableEq

structure RandomCardOutput where
  name : String
  type_line : String
  oracle_text : Option String
  mana_cost : Option String
  cmc : Option Rat
  image_url : Option String
  scryfall_id : String
  set_name : String
  set_code : String
  deriving DecidableEq

structure SingleSetInput where
  set_code : String
  deriving DecidableEq

structure SingleSetOutput where
  code : String
  name : String
  set_type : String
  released_at : Option String
  card_count : Int
  scryfall_id : String
  block : Option String
  parent_set_code : Option String
  digital : Bool
  foil_only : Bool
  icon_svg_uri : Option String
  deriving DecidableEq

structure CatalogInput where
  catalog_type : String
  deriving DecidableEq

structure CatalogOutput where
  catalog_type : String
  data : List String
  total_items : Int
  deriving DecidableEq

structure ExactCardInput where
  exact_name : String
  set_code : Option String
  deriving DecidableEq

structure ExactCardOutput where
  name : String
  type_line : String
  oracle_text : Option String
  mana_cost : Option String
  cmc : Option Rat
  image_url : Option String
  scryfall_id : String
  set_name : String
  set_code : String
  rarity : String
  deriving DecidableEq

/-! Handler `search_card` (`POST /search-card`). -/

/-- The composite `data.get("image_uris", {}).get("normal", "")`. -/
def imageNormalD (iu : Option ImageUris) : String :=
  match iu with
  | none => ""
  | some u => u.normal.getD ""

/-- The composite `data.get("image_uris", {}).get("normal")` (no default). -/
def imageNormalOpt (iu : Option ImageUris) : Option String :=
  match iu with
  | none => none
  | some u => u.normal

/-- The placeholder returned by `search_card` on an upstream 404. -/
def searchCardNotFound (n : String) : CardSearchOutput :=
  { name := "Card not found: " ++ n
  , type_line := "Not Found"
  , oracle_text := "No Magic: The Gathering card found with the name '" ++ n ++ "'"
  , image_url := "" }

/-- The sentinel returned by `search_card`'s `except` block. -/
def searchCardError (n : String) (e : String) : CardSearchOutput :=
  { name := "Error searching for: " ++ n
  , type_line := "Error"
  , oracle_text := "An error occurred while searching: " ++ e
  , image_url := "" }

/-- The `try` body of `search_card`: 404 check, then JSON decoding with
bracket access on `name` and `type_line` and defaulted access elsewhere. -/
def searchCardTry (n : String) (u : UpstreamResult CardData) :
    Except String CardSearchOutput :=
  match u with
  | UpstreamResult.exn m => Except.error m
  | UpstreamResult.resp status body =>
    if status = 404 then Except.ok (searchCardNotFound n)
    else do
      let data ← body
      let nm ← pyGet data.name "name"
      let tl ← pyGet data.type_line "type_line"
      pure { name := nm
           , type_line := tl
           , oracle_text := data.oracle_text.getD "No oracle text available"
           , image_url := imageNormalD data.image_uris }

def searchCardRequest (n : String) : HttpRequest :=
  { url := "https://api.scryfall.com/cards/named", params := [("fuzzy", n)] }

/-- Handler `search_card`: result together with its effect trace. -/
def search_card (i : CardSearchInput) (u : UpstreamResult CardData) :
    CardSearchOutput × List Event :=
  (runCaught (searchCardTry i.name u) (searchCardError i.name),
   [Event.sleep 75, Event.request (searchCardRequest i.name)])

/-! Handler `search_cards` (`POST /search-cards`). -/

/-- The empty result `search_cards` returns on 404 and in its `except`
block. -/
def searchCardsEmpty : CardsSearchOutput :=
  { cards := [], total_cards := 0, has_more := false }

/-- One iteration of the card-mapping loop of `search_cards`: bracket
access on `name`, `type_line` and `id`, defaulted access elsewhere. -/
def mapCardResult (c : CardData) : Except String CardResult := do
  let nm ← pyGet c.name "name"
  let tl ← pyGet c.type_line "type_line"
  let cid ← pyGet c.id "id"
  pure { name := nm
       , type_line := tl
       , oracle_text := c.oracle_text
       , mana_cost := c.mana_cost
       , cmc := c.cmc
       , image_url := imageNormalOpt c.image_uris
       , scryfall_id := cid }

/-- The `try` body of `search_cards`: 404 check, `raise_for_status`, JSON
decoding, then the mapping loop (which aborts the whole body on a missing
required key, as the Python loop does). -/
def searchCardsTry (u : UpstreamResult CardListBody) :
    Except String CardsSearchOutput :=
  match u with
  | UpstreamResult.exn m => Except.error m
  | UpstreamResult.resp status body =>
    if status = 404 then Except.ok searchCardsEmpty
    else do
      raiseForStatus status
      let data ← body
      let cards ← (data.data.getD []).mapM mapCardResult
      pure { cards := cards
           , total_cards := data.total_cards.getD (Int.ofNat cards.length)
           , has_more := data.has_more.getD false }

def searchCardsRequest (i : CardsSearchInput) : HttpRequest :=
  { url := "https://api.scryfall.com/cards/search"
  , params := [("q", i.query), ("unique", i.unique),
               ("order", i.order), ("page", toString i.page)] }

/-- Handler `search_cards`: result together with its effect trace. -/
def search_cards (i : CardsSearchInput) (u : UpstreamResult CardListBody) :
    CardsSearchOutput × List Event :=
  (runCaught (searchCardsTry u) (fun _ => searchCardsEmpty),
   [Event.sleep 75, Event.request (searchCardsRequest i)])

/-! Handler `get_card_rulings` (`POST /card-rulings`), the only handler
issuing two outbound calls. -/

/-- The sentinel returned by `get_card_rulings`'s `except` block. -/
def rulingsErrorOutput (sid : String) (e : String) : CardRulingsOutput :=
  { card_name := "Error"
  , scryfall_id := sid
  , rulings := [{ source := "error"
                , published_at := ""
                , comment := "Error retrieving rulings: " ++ e }] }

/-- First phase of `get_card_rulings`: fetch the card; on status 200 decode
the body and read `name` with a default, on any other status keep
`"Unknown Card"` without touching the body. -/
def cardNameStep (u1 : UpstreamResult CardData) : Except String String :=
  match u1 with
  | UpstreamResult.exn m => Except.error m
  | UpstreamResult.resp status body =>
    if status = 200 then do
      let d ← body
      pure (d.name.getD "Unknown Card")
    else pure "Unknown Card"

/-- One iteration of the rulings-mapping loop (all accesses defaulted). -/
def mapRuling (r : RulingJson) : Ruling :=
  { source := r.source.getD ""
  , published_at := r.published_at.getD ""
  , comment := r.comment.getD "" }

/-- Second phase of `get_card_rulings`: fetch the rulings, with 404 check,
`raise_for_status`, decoding and mapping. -/
def rulingsStep (cardName sid : String) (u2 : UpstreamResult RulingsBody) :
    Except String CardRulingsOutput :=
  match u2 with
  | UpstreamResult.exn m => Except.error m
  | UpstreamResult.resp status body =>
    if status = 404 then
      Except.ok { card_name := cardName, scryfall_id := sid, rulings := [] }
    else do
      raiseForStatus status
      let d ← body
      pure { card_name := cardName
           , scryfall_id := sid
           , rulings := (d.data.getD []).map mapRuling }

/-- The whole `try` body of `get_card_rulings`. -/
def getCardRulingsTry (sid : String) (u1 : UpstreamResult CardData)
    (u2 : UpstreamResult RulingsBody) : Except String CardRulingsOutput := do
  let cn ← cardNameStep u1
  rulingsStep cn sid u2

def cardRequest (sid : String) : HttpRequest :=
  { url := "https://api.scryfall.com/cards/" ++ sid, params := [] }

def rulingsRequest (sid : String) : HttpRequest :=
  { url := "https://api.scryfall.com/cards/" ++ sid ++ "/rulings", params := [] }

/-- Effect trace of `get_card_rulings`: the second call is only attempted
when the first phase did not raise. -/
def rulingsTrace (sid : String) (u1 : UpstreamResult CardData) : List Event :=
  match cardNameStep u1 with
  | Except.error _ => [Event.sleep 75, Event.request (cardRequest sid)]
  | Except.ok _ =>
      [Event.sleep 75, Event.request (cardRequest sid),
       Event.sleep 75, Event.request (rulingsRequest sid)]

/-- Handler `get_card_rulings`: result together with its effect trace. -/
def get_card_rulings (i : CardRulingsInput) (u1 : UpstreamResult CardData)
    (u2 : UpstreamResult RulingsBody) : CardRulingsOutput × List Event :=
  (runCaught (getCardRulingsTry i.scryfall_id u1 u2)
     (rulingsErrorOutput i.scryfall_id),
   rulingsTrace i.scryfall_id u1)

/-! Handler `get_all_sets` (`GET /sets`). -/

/-- One iteration of the set-mapping loop (all accesses defaulted). -/
def mapSetInfo (s : SetJson) : SetInfo :=
  { code := s.code.getD ""
  , name := s.name.getD ""
  , set_type := s.set_type.getD ""
  , released_at := s.released_at
  , card_count := s.card_count.getD 0
  , scryfall_id := s.id.getD "" }

/-- The sentinel returned by `get_all_sets`'s `except` block: a one-element
error list paired with `total_sets = 0`. -/
def allSetsError : SetsOutput :=
  { sets := [{ code := "error"
             , name := "Error retrieving sets"
             , set_type := "error"
             , released_at := none
             , card_count := 0
             , scryfall_id := "" }]
  , total_sets := 0 }

/-- The `try` body of `get_all_sets`: no 404 branch, just
`raise_for_status`, decoding and mapping. -/
def getAllSetsTry (u : UpstreamResult SetsBody) : Except String SetsOutput :=
  match u with
  | UpstreamResult.exn m => Except.error m
  | UpstreamResult.resp status body => do
      raiseForStatus status
      let d ← body
      let sets := (d.data.getD []).map mapSetInfo
      pure { sets := sets, total_sets := Int.ofNat sets.length }

def setsRequest : HttpRequest :=
  { url := "https://api.scryfall.com/sets", params := [] }

/-- Handler `get_all_sets`: result together with its effect trace. -/
def get_all_sets (u : UpstreamResult SetsBody) : SetsOutput × List Event :=
  (runCaught (getAllSetsTry u) (fun _ => allSetsError),
   [Event.sleep 75, Event.request setsRequest])

/-! Handler `get_card_symbols` (`GET /card-symbols`). -/

/-- One iteration of the symbol-mapping loop (all accesses defaulted). -/
def mapCardSymbol (s : SymbolJson) : CardSymbol :=
  { symbol := s.symbol.getD ""
  , loose_variant := s.loose_variant
  , english := s.english.getD ""
  , transposable := s.transposable.getD false
  , represents_mana := s.represents_mana.getD false
  , appears_in_mana_costs := s.appears_in_mana_costs.getD false
  , mana_value := s.mana_value
  , colors := s.colors.getD [] }

/-- The empty result `get_card_symbols` returns in its `except` block. -/
def cardSymbolsEmpty : CardSymbolsOutput := { symbols := [], total_symbols := 0 }

/-- The `try` body of `get_card_symbols`. -/
def getCardSymbolsTry (u : UpstreamResult SymbologyBody) :
    Except String CardSymbolsOutput :=
  match u with
  | UpstreamResult.exn m => Except.error m
  | UpstreamResult.resp status body => do
      raiseForStatus status
      let d ← body
      let syms := (d.data.getD []).map mapCardSymbol
      pure { symbols := syms, total_symbols := Int.ofNat syms.length }

def symbologyRequest : HttpRequest :=
  { url := "https://api.scryfall.com/symbology", params := [] }

/-- Handler `get_card_symbols`: result together with its effect trace. -/
def get_card_symbols (u : UpstreamResult SymbologyBody) :
    CardSymbolsOutput × List Event :=
  (runCaught (getCardSymbolsTry u) (fun _ => cardSymbolsEmpty),
   [Event.sleep 75, Event.request symbologyRequest])

/-! Handler `get_random_card` (`GET /random-card`). -/

/-- The sentinel returned by `get_random_card`'s `except` block. -/
def randomCardError (e : String) : RandomCardOutput :=
  { name := "Error"
  , type_line := "Error"
  , oracle_text := some ("Error getting random card: " ++ e)
  , mana_cost := none
  , cmc := none
  , image_url := none
  , scryfall_id := ""
  , set_name := ""
  , set_code := "" }

/-- The `try` body of `get_random_card`: `raise_for_status`, then a fully
defaulted field mapping. -/
def getRandomCardTry (u : UpstreamResult CardData) :
    Except String RandomCardOutput :=
  match u with
  | UpstreamResult.exn m => Except.error m
  | UpstreamResult.resp status body => do
      raiseForStatus status
      let d ← body
      pure { name := d.name.getD ""
           , type_line := d.type_line.getD ""
           , oracle_text := d.oracle_text
           , mana_cost := d.mana_cost
           , cmc := d.cmc
           , image_url := imageNormalOpt d.image_uris
           , scryfall_id := d.id.getD ""
           , set_name := d.set_name.getD ""
           , set_code := d.set.getD "" }

def randomCardRequest : HttpRequest :=
  { url := "https://api.scryfall.com/cards/random", params := [] }

/-- Handler `get_random_card`: result together with its effect trace. -/
def get_random_card (u : UpstreamResult CardData) :
    RandomCardOutput × List Event :=
  (runCaught (getRandomCardTry u) randomCardError,
   [Event.sleep 75, Event.request randomCardRequest])

/-! Handler `get_set_details` (`POST /set-details`). -/

/-- The placeholder returned by `get_set_details` on an upstream 404. -/
def setNotFound (sc : String) : SingleSetOutput :=
  { code := sc
  , name := "Set not found"
  , set_type := "unknown"
  , released_at := none
  , card_count := 0
  , scryfall_id := ""
  , block := none
  , parent_set_code := none
  , digital := false
  , foil_only := false
  , icon_svg_uri := none }

/-- The sentinel returned by `get_set_details`'s `except` block; it drops
the exception text. -/
def setDetailsError (sc : String) : SingleSetOutput :=
  { code := sc
  , name := "Error"
  , set_type := "error"
  , released_at := none
  , card_count := 0
  , scryfall_id := ""
  , block := none
  , parent_set_code := none
  , digital := false
  , foil_only := false
  , icon_svg_uri := none }

/-- The `try` body of `get_set_details`. -/
def getSetDetailsTry (sc : String) (u : UpstreamResult SetJson) :
    Except String SingleSetOutput :=
  match u with
  | UpstreamResult.exn m => Except.error m
  | UpstreamResult.resp status body =>
    if status = 404 then Except.ok (setNotFound sc)
    else do
      raiseForStatus status
      let d ← body
      pure { code := d.code.getD ""
           , name := d.name.getD ""
           , set_type := d.set_type.getD ""
           , released_at := d.released_at
           , card_count := d.card_count.getD 0
           , scryfall_id := d.id.getD ""
           , block := d.block
           , parent_set_code := d.parent_set_code
           , digital := d.digital.getD false
           , foil_only := d.foil_only.getD false
           , icon_svg_uri := d.icon_svg_uri }

def setDetailsRequest (sc : String) : HttpRequest :=
  { url := "https://api.scryfall.com/sets/" ++ sc, params := [] }

/-- Handler `get_set_details`: result together with its effect trace. -/
def get_set_details (i : SingleSetInput) (u : UpstreamResult SetJson) :
    SingleSetOutput × List Event :=
  (runCaught (getSetDetailsTry i.set_code u) (fun _ => setDetailsError i.set_code),
   [Event.sleep 75, Event.request (setDetailsRequest i.set_code)])

/-! Handler `get_catalog` (`POST /catalog`). -/

/-- The empty result `get_catalog` returns on 404 and in its `except`
block. -/
def catalogEmpty (ct : String) : CatalogOutput :=
  { catalog_type := ct, data := [], total_items := 0 }

/-- The `try` body of `get_catalog`; `total_items` recomputes
`len(data.get("data", []))` exactly as the source does. -/
def getCatalogTry (ct : String) (u : UpstreamResult CatalogBody) :
    Except String CatalogOutput :=
  match u with
  | UpstreamResult.exn m => Except.error m
  | UpstreamResult.resp status body =>
    if status = 404 then Except.ok (catalogEmpty ct)
    else do
      raiseForStatus status
      let d ← body
      pure { catalog_type := ct
           , data := d.data.getD []
           , total_items := Int.ofNat (d.data.getD []).length }

def catalogRequest (ct : String) : HttpRequest :=
  { url := "https://api.scryfall.com/catalog/" ++ ct, params := [] }

/-- Handler `get_catalog`: result together with its effect trace. -/
def get_catalog (i : CatalogInput) (u : UpstreamResult CatalogBody) :
    CatalogOutput × List Event :=
  (runCaught (getCatalogTry i.catalog_type u) (fun _ => catalogEmpty i.catalog_type),
   [Event.sleep 75, Event.request (catalogRequest i.catalog_type)])

/-! Handler `get_exact_card` (`POST /exact-card`). -/

/-- The placeholder returned by `get_exact_card` on an upstream 404. -/
def exactNotFound (en : String) : ExactCardOutput :=
  { name := "Card not found: " ++ en
  , type_line := "Not Found"
  , oracle_text := some ("No card found with exact name '" ++ en ++ "'")
  , mana_cost := none
  , cmc := none
  , image_url := none
  , scryfall_id := ""
  , set_name := ""
  , set_code := ""
  , rarity := "" }

/-- The sentinel returned by `get_exact_card`'s `except` block. -/
def exactError (en : String) (e : String) : ExactCardOutput :=
  { name := "Error: " ++ en
  , type_line := "Error"
  , oracle_text := some ("Error retrieving card: " ++ e)
  , mana_cost := none
  , cmc := none
  , image_url := none
  , scryfall_id := ""
  , set_name := ""
  , set_code := ""
  , rarity := "" }

/-- Query parameters of `get_exact_card`: the `set` parameter is added only
when `input_data.set_code` is truthy in Python, i.e. neither `None` nor the
empty string. -/
def exactParams (i : ExactCardInput) : List (String × String) :=
  match i.set_code with
  | none => [("exact", i.exact_name)]
  | some sc =>
    if sc = "" then [("exact", i.exact_name)]
    else [("exact", i.exact_name), ("set", sc)]

/-- The `try` body of `get_exact_card`. -/
def getExactCardTry (en : String) (u : UpstreamResult CardData) :
    Except String ExactCardOutput :=
  match u with
  | UpstreamResult.exn m => Except.error m
  | UpstreamResult.resp status body =>
    if status = 404 then Except.ok (exactNotFound en)
    else do
      raiseForStatus status
      let d ← body
      pure { name := d.name.getD ""
           , type_line := d.type_line.getD ""
           , oracle_text := d.oracle_text
           , mana_cost := d.mana_cost
           , cmc := d.cmc
           , image_url := imageNormalOpt d.image_uris
           , scryfall_id := d.id.getD ""
           , set_name := d.set_name.getD ""
           , set_code := d.set.getD ""
           , rarity := d.rarity.getD "" }

def exactCardRequest (i : ExactCardInput) : HttpRequest :=
  { url := "https://api.scryfall.com/cards/named", params := exactParams i }

/-- Handler `get_exact_card`: result together with its effect trace. -/
def get_exact_card (i : ExactCardInput) (u : UpstreamResult CardData) :
    ExactCardOutput × List Event :=
  (runCaught (getExactCardTry i.exact_name u) (exactError i.exact_name),
   [Event.sleep 75, Event.request (exactCardRequest i)])

/-! Trace predicates used by the temporal claims. -/

/-- Whether an event is an outbound request. -/
def isRequest (e : Event) : Bool :=
  match e with
  | Event.request _ => true
  | Event.sleep _ => false

/-- Number of outbound requests in a trace. -/
def requestCount (t : List Event) : Nat := (t.filter isRequest).length

/-- Whether every outbound request in a trace is immediately preceded by a
75 ms sleep. -/
def delayedRequests : List Event → Bool
  | [] => true
  | Event.request _ :: _ => false
  | Event.sleep d :: Event.request _ :: rest => d == 75 && delayedRequests rest
  | Event.sleep _ :: rest => delayedRequests rest

/-- All string fields reachable in a `CardsSearchOutput` (optional fields
defaulted to `""`); the schema has no other text-bearing field. -/
def CardsSearchOutput.textFields (o : CardsSearchOutput) : List String :=
  (o.cards.map (fun c =>
    [c.name, c.type_line, c.oracle_text.getD "", c.mana_cost.getD "",
     c.image_url.getD "", c.scryfall_id])).flatten

/-! Helper lemmas shared by the claim theorems. -/

/-- A computation run through `runCaught` either succeeded and its value is
returned, or raised and the `except` handler's value is returned. -/
theorem runCaught_cases {α : Type} (r : Except String α) (h : String → α) :
    (∃ o, r = Except.ok o ∧ runCaught r h = o) ∨
    (∃ m, r = Except.error m ∧ runCaught r h = h m) := by
  cases r with
  | ok a => exact Or.inl ⟨a, rfl, rfl⟩
  | error m => exact Or.inr ⟨m, rfl, rfl⟩

/-- C1: for every handler and every upstream outcome (HTTP 404, any other
status, or an exception raised during the outbound call or response
processing), the handler returns a normal value of its declared output
type: the `try` body's value when it succeeds, and otherwise the `except`
block's sentinel.  No fault escapes to the transport layer. -/
theorem c1_every_handler_returns_normal_response :
    (∀ (i : CardSearchInput) (u : UpstreamResult CardData),
      (∃ o, searchCardTry i.name u = Except.ok o ∧ (search_card i u).1 = o) ∨
      (∃ m, searchCardTry i.name u = Except.error m ∧
        (search_card i u).1 = searchCardError i.name m)) ∧
    (∀ (i : CardsSearchInput) (u : UpstreamResult CardListBody),
      (∃ o, searchCardsTry u = Except.ok o ∧ (search_cards i u).1 = o) ∨
      (∃ m, searchCardsTry u = Except.error m ∧
        (search_cards i u).1 = searchCardsEmpty)) ∧
    (∀ (i : CardRulingsInput) (u1 : UpstreamResult CardData)
        (u2 : UpstreamResult RulingsBody),
      (∃ o, getCardRulingsTry i.scryfall_id u1 u2 = Except.ok o ∧
        (get_card_rulings i u1 u2).1 = o) ∨
      (∃ m, getCardRulingsTry i.scryfall_id u1 u2 = Except.error m ∧
        (get_card_rulings i u1 u2).1 = rulingsErrorOutput i.scryfall_id m)) ∧
    (∀ u : UpstreamResult SetsBody,
      (∃ o, getAllSetsTry u = Except.ok o ∧ (get_all_sets u).1 = o) ∨
      (∃ m, getAllSetsTry u = Except.error m ∧
        (get_all_sets u).1 = allSetsError)) ∧
    (∀ u : UpstreamResult SymbologyBody,
      (∃ o, getCardSymbolsTry u = Except.ok o ∧ (get_card_symbols u).1 = o) ∨
      (∃ m, getCardSymbolsTry u = Except.error m ∧
        (get_card_symbols u).1 = cardSymbolsEmpty)) ∧
    (∀ u : UpstreamResult CardData,
      (∃ o, getRandomCardTry u = Except.ok o ∧ (get_random_card u).1 = o) ∨
      (∃ m, getRandomCardTry u = Except.error m ∧
        (get_random_card u).1 = randomCardError m)) ∧
    (∀ (i : SingleSetInput) (u : UpstreamResult SetJson),
      (∃ o, getSetDetailsTry i.set_code u = Except.ok o ∧
        (get_set_details i u).1 = o) ∨
      (∃ m, getSetDetailsTry i.set_code u = Except.error m ∧
        (get_set_details i u).1 = setDetailsError i.set_code)) ∧
    (∀ (i : CatalogInput) (u : UpstreamResult CatalogBody),
      (∃ o, getCatalogTry i.catalog_type u = Except.ok o ∧
        (get_catalog i u).1 = o) ∨
      (∃ m, getCatalogTry i.catalog_type u = Except.error m ∧
        (get_catalog i u).1 = catalogEmpty i.catalog_type)) ∧
    (∀ (i : ExactCardInput) (u : UpstreamResult CardData),
      (∃ o, getExactCardTry i.exact_name u = Except.ok o ∧
        (get_exact_card i u).1 = o) ∨
      (∃ m, getExactCardTry i.exact_name u = Except.error m ∧
        (get_exact_card i u).1 = exactError i.exact_name m)) := by
  refine ⟨?_, ?_, ?_, ?_, ?_, ?_, ?_, ?_, ?_⟩
  · exact fun i u => runCaught_cases _ _
  · exact fun i u => runCaught_cases _ _
  · exact fun i u1 u2 => runCaught_cases _ _
  · exact fun u => runCaught_cases _ _
  · exact fun u => runCaught_cases _ _
  · exact fun u => runCaught_cases _ _
  · exact fun i u => runCaught_cases _ _
  · exact fun i u => runCaught_cases _ _
  · exact fun i u => runCaught_cases _ _

/-- C2 counterexample: `search_cards` maps the exception `"boom"` to the
fixed empty result, whose schema has no text field at all (its only strings
would live in the empty `cards` list), and the result does not depend on
the exception's text — so no text field carries `str(e)`. -/
theorem c2_counterexample_search_cards_drops_exception_text :
    (search_cards { query := "q", unique := "cards", order := "name", page := 1 }
        (UpstreamResult.exn "boom")).1 = searchCardsEmpty ∧
    CardsSearchOutput.textFields
      (search_cards { query := "q", unique := "cards", order := "name", page := 1 }
        (UpstreamResult.exn "boom")).1 = [] ∧
    (search_cards { query := "q", unique := "cards", order := "name", page := 1 }
        (UpstreamResult.exn "boom")).1
      = (search_cards { query := "q", unique := "cards", order := "name", page := 1 }
        (UpstreamResult.exn "other")).1 :=
  ⟨rfl, rfl, rfl⟩

/-- C2 amended: every handler catches any exception other than an upstream
404 and returns a sentinel result, but only `search_card`,
`get_card_rulings`, `get_random_card`, and `get_exact_card` carry the
exception's string representation in a text field; `search_cards`,
`get_all_sets`, `get_card_symbols`, `get_set_details`, and `get_catalog`
return fixed sentinels that do not include the exception text. -/
theorem c2_amended_exception_to_sentinel_mapping :
    (∀ (i : CardSearchInput) (m : String),
      (search_card i (UpstreamResult.exn m)).1 = searchCardError i.name m ∧
      (search_card i (UpstreamResult.exn m)).1.oracle_text
        = "An error occurred while searching: " ++ m) ∧
    (∀ (i : CardSearchInput) (m : String),
      (search_card i (UpstreamResult.resp 200 (Except.error m))).1
        = searchCardError i.name m) ∧
    (∀ (i : CardRulingsInput) (m : String) (u2 : UpstreamResult RulingsBody),
      (get_card_rulings i (UpstreamResult.exn m) u2).1
        = rulingsErrorOutput i.scryfall_id m ∧
      (rulingsErrorOutput i.scryfall_id m).rulings.map Ruling.comment
        = ["Error retrieving rulings: " ++ m]) ∧
    (∀ m : String,
      (get_random_card (UpstreamResult.exn m)).1 = randomCardError m ∧
      (randomCardError m).oracle_text
        = some ("Error getting random card: " ++ m)) ∧
    (∀ (i : ExactCardInput) (m : String),
      (get_exact_card i (UpstreamResult.exn m)).1 = exactError i.exact_name m ∧
      (exactError i.exact_name m).oracle_text
        = some ("Error retrieving card: " ++ m)) ∧
    (∀ (i : CardsSearchInput) (m : String),
      (search_cards i (UpstreamResult.exn m)).1 = searchCardsEmpty) ∧
    (∀ m : String, (get_all_sets (UpstreamResult.exn m)).1 = allSetsError) ∧
    (∀ m : String,
      (get_card_symbols (UpstreamResult.exn m)).1 = cardSymbolsEmpty) ∧
    (∀ (i : SingleSetInput) (m : String),
      (get_set_details i (UpstreamResult.exn m)).1 = setDetailsError i.set_code) ∧
    (∀ (i : CatalogInput) (m : String),
      (get_catalog i (UpstreamResult.exn m)).1 = catalogEmpty i.catalog_type) := by
  refine ⟨?_, ?_, ?_, ?_, ?_, ?_, ?_, ?_, ?_, ?_⟩
  · exact fun i m => ⟨rfl, rfl⟩
  · exact fun i m => rfl
  · exact fun i m u2 => ⟨rfl, rfl⟩
  · exact fun m => ⟨rfl, rfl⟩
  · exact fun i m => ⟨rfl, rfl⟩
  · exact fun i m => rfl
  · exact fun m => rfl
  · exact fun m => rfl
  · exact fun i m => rfl
  · exact fun i m => rfl

/-- C3 counterexample: on an upstream 404, the `search_card` sentinel's
oracle-text field is a non-empty human-readable message, not empty as the
claim states. -/
theorem c3_counterexample_notfound_oracle_text_nonempty :
    (search_card { name := "Foo" }
        (UpstreamResult.resp 404 (Except.error "ignored"))).1.oracle_text
      = "No Magic: The Gathering card found with the name 'Foo'" ∧
    (search_card { name := "Foo" }
        (UpstreamResult.resp 404 (Except.error "ignored"))).1.oracle_text ≠ "" := by
  refine ⟨rfl, ?_⟩
  decide

/-- C3 amended: for every card-name query for which the upstream returns
HTTP 404, `search_card` returns a deterministic "not found" sentinel — a
fixed function of the input name only, independent of the response body —
whose image field is empty and whose oracle-text field carries a fixed
human-readable not-found message naming the query (not card text, and not
the empty string). -/
theorem c3_amended_404_sentinel (i : CardSearchInput)
    (b b' : Except String CardData) :
    (search_card i (UpstreamResult.resp 404 b)).1 = searchCardNotFound i.name ∧
    (search_card i (UpstreamResult.resp 404 b)).1
      = (search_card i (UpstreamResult.resp 404 b')).1 ∧
    (search_card i (UpstreamResult.resp 404 b)).1.image_url = "" ∧
    (search_card i (UpstreamResult.resp 404 b)).1.oracle_text
      = "No Magic: The Gathering card found with the name '" ++ i.name ++ "'" :=
  ⟨rfl, rfl, rfl, rfl⟩

/-- C4: for every catalog-type input for which the upstream catalog
endpoint returns HTTP 404, `get_catalog` returns a response with an empty
data list and `total_items = 0`, regardless of the response body, without
faulting. -/
theorem c4_catalog_404_empty (i : CatalogInput) (b : Except String CatalogBody) :
    (get_catalog i (UpstreamResult.resp 404 b)).1
      = { catalog_type := i.catalog_type, data := [], total_items := 0 } :=
  rfl

/-- A card record with the required fields present and every optional
field absent. -/
def cardFixtureNoOptionals : CardData :=
  { name := some "A", type_line := some "B", oracle_text := none
  , mana_cost := none, cmc := none, image_uris := none, id := none
  , set_name := none, set := none, rarity := none }

/-- A set record with every field absent. -/
def setFixtureAllAbsent : SetJson :=
  { code := none, name := none, set_type := none, released_at := none
  , card_count := none, id := none, block := none, parent_set_code := none
  , digital := none, foil_only := none, icon_svg_uri := none }

/-- C5: when an optional field (`oracle_text`, `image_uris`, `card_count`,
`released_at`) is absent from a successful upstream record, the handlers
map it to an empty or default value, and the mapping neither omits the
field nor faults on the absence. -/
theorem c5_absent_optional_fields_default (i : CardSearchInput) (d : CardData)
    (nm tl : String) (h1 : d.name = some nm) (h2 : d.type_line = some tl)
    (h3 : d.oracle_text = none) (h4 : d.image_uris = none)
    (s : SetJson) (h5 : s.released_at = none) (h6 : s.card_count = none) :
    (search_card i (UpstreamResult.resp 200 (Except.ok d))).1
      = { name := nm, type_line := tl
        , oracle_text := "No oracle text available", image_url := "" } ∧
    (mapSetInfo s).released_at = none ∧
    (mapSetInfo s).card_count = 0 ∧
    (∀ b : SetsBody, b.data = some [s] →
      (get_all_sets (UpstreamResult.resp 200 (Except.ok b))).1
        = { sets := [mapSetInfo s], total_sets := 1 }) := by
  obtain ⟨dn, dt, dot, dm, dc, di, did, dsn, dse, dr⟩ := d
  change dn = some nm at h1
  change dt = some tl at h2
  change dot = none at h3
  change di = none at h4
  subst h1; subst h2; subst h3; subst h4
  refine ⟨rfl, ?_, ?_, ?_⟩
  · show s.released_at = none
    exact h5
  · show s.card_count.getD 0 = 0
    rw [h6]
    rfl
  · intro b hb
    obtain ⟨bd⟩ := b
    change bd = some [s] at hb
    subst hb
    rfl

/-- C5 witness: concrete instantiation with a record missing all optional
fields. -/
theorem c5_witness :
    (search_card { name := "x" }
        (UpstreamResult.resp 200 (Except.ok cardFixtureNoOptionals))).1
      = { name := "A", type_line := "B"
        , oracle_text := "No oracle text available", image_url := "" } ∧
    (mapSetInfo setFixtureAllAbsent).released_at = none ∧
    (mapSetInfo setFixtureAllAbsent).card_count = 0 ∧
    (get_all_sets (UpstreamResult.resp 200
        (Except.ok { data := some [setFixtureAllAbsent] }))).1
      = { sets := [mapSetInfo setFixtureAllAbsent], total_sets := 1 } := by
  obtain ⟨a, b, c, d⟩ := c5_absent_optional_fields_default { name := "x" }
    cardFixtureNoOptionals "A" "B" rfl rfl rfl rfl setFixtureAllAbsent rfl rfl
  exact ⟨a, b, c, d { data := some [setFixtureAllAbsent] } rfl⟩

/-- A well-formed 200 card record whose `name` happens to equal the
`search_card` not-found sentinel text for the query `"Foo"`. -/
def sentinelNamedCard : CardData :=
  { name := some "Card not found: Foo"
  , type_line := some "Not Found"
  , oracle_text := some "No Magic: The Gathering card found with the name 'Foo'"
  , mana_cost := none, cmc := none, image_uris := none, id := none
  , set_name := none, set := none, rarity := none }

/-- C6 counterexample: the upstream returns HTTP 200 with a card record,
yet the result's name equals the not-found sentinel name (indeed the whole
output equals the sentinel), because the handler passes the upstream name
through unchecked. -/
theorem c6_counterexample_200_output_equals_sentinel :
    (search_card { name := "Foo" }
        (UpstreamResult.resp 200 (Except.ok sentinelNamedCard))).1.name
      = (searchCardNotFound "Foo").name ∧
    (search_card { name := "Foo" }
        (UpstreamResult.resp 200 (Except.ok sentinelNamedCard))).1
      = searchCardNotFound "Foo" := by
  refine ⟨?_, ?_⟩ <;> decide

/-- C6 amended: on HTTP 200 with a record containing `name` and
`type_line`, the result's name equals the upstream record's name;
in particular, whenever that upstream name is non-empty and not of the
sentinel forms `"Card not found: …"` or `"Error searching for: …"`, the
result's name is non-empty and distinct from every not-found and error
sentinel name the handler can produce. -/
theorem c6_amended_success_name_passthrough (i : CardSearchInput)
    (d : CardData) (nm tl : String)
    (h1 : d.name = some nm) (h2 : d.type_line = some tl)
    (hne : nm ≠ "")
    (hnf : ∀ k, nm ≠ "Card not found: " ++ k)
    (her : ∀ k, nm ≠ "Error searching for: " ++ k) :
    (search_card i (UpstreamResult.resp 200 (Except.ok d))).1.name = nm ∧
    (search_card i (UpstreamResult.resp 200 (Except.ok d))).1.name ≠ "" ∧
    (∀ n, (search_card i (UpstreamResult.resp 200 (Except.ok d))).1.name
        ≠ (searchCardNotFound n).name) ∧
    (∀ n e, (search_card i (UpstreamResult.resp 200 (Except.ok d))).1.name
        ≠ (searchCardError n e).name) := by
  obtain ⟨dn, dt, dot, dm, dc, di, did, dsn, dse, dr⟩ := d
  change dn = some nm at h1
  change dt = some tl at h2
  subst h1; subst h2
  exact ⟨rfl, hne, fun n => hnf n, fun n e => her n⟩

/-- A concrete existing-card record for the C6 witness. -/
def boltCard : CardData :=
  { name := some "Lightning Bolt", type_line := some "Instant"
  , oracle_text := none, mana_cost := none, cmc := none, image_uris := none
  , id := none, set_name := none, set := none, rarity := none }

/-- C6 witness: concrete instantiation with a genuine card name. -/
theorem c6_witness :
    (search_card { name := "Bolt" }
        (UpstreamResult.resp 200 (Except.ok boltCard))).1.name
      = "Lightning Bolt" ∧
    (search_card { name := "Bolt" }
        (UpstreamResult.resp 200 (Except.ok boltCard))).1.name ≠ "" ∧
    (search_card { name := "Bolt" }
        (UpstreamResult.resp 200 (Except.ok boltCard))).1.name
      ≠ (searchCardNotFound "Bolt").name ∧
    (search_card { name := "Bolt" }
        (UpstreamResult.resp 200 (Except.ok boltCard))).1.name
      ≠ (searchCardError "Bolt" "boom").name := by
  have hnf : ∀ k, ("Lightning Bolt" : String) ≠ "Card not found: " ++ k := by
    intro k h
    have hl := congrArg String.length h
    rw [String.length_append] at hl
    have h14 : ("Lightning Bolt" : String).length = 14 := rfl
    have h16 : ("Card not found: " : String).length = 16 := rfl
    rw [h14, h16] at hl
    omega
  have her : ∀ k, ("Lightning Bolt" : String) ≠ "Error searching for: " ++ k := by
    intro k h
    have hl := congrArg String.length h
    rw [String.length_append] at hl
    have h14 : ("Lightning Bolt" : String).length = 14 := rfl
    have h21 : ("Error searching for: " : String).length = 21 := rfl
    rw [h14, h21] at hl
    omega
  obtain ⟨a, b, c, d⟩ := c6_amended_success_name_passthrough { name := "Bolt" }
    boltCard "Lightning Bolt" "Instant" rfl rfl (by decide) hnf her
  exact ⟨a, b, c "Bolt", d "Bolt" "boom"⟩

/-- C7: for every input and every upstream outcome, `search_cards` issues
exactly one outbound request, to the full-text-search resource, carrying
the input's query, unique, order and page values as the `q`, `unique`,
`order` and `page` query parameters unmodified (the integer page is
rendered in decimal by the HTTP client). -/
theorem c7_search_cards_request_params (i : CardsSearchInput)
    (u : UpstreamResult CardListBody) :
    (search_cards i u).2
      = [Event.sleep 75,
         Event.request
           { url := "https://api.scryfall.com/cards/search"
           , params := [("q", i.query), ("unique", i.unique),
                        ("order", i.order), ("page", toString i.page)] }] :=
  rfl

/-- The trace of `get_card_rulings` contains at most two requests, each
preceded by a 75 ms sleep, whichever way the first phase turns out. -/
theorem rulingsTrace_bounded (sid : String) (u1 : UpstreamResult CardData) :
    requestCount (rulingsTrace sid u1) ≤ 2 ∧
    delayedRequests (rulingsTrace sid u1) = true := by
  unfold rulingsTrace
  cases cardNameStep u1 with
  | error m => exact ⟨Nat.le_succ 1, rfl⟩
  | ok cn => exact ⟨Nat.le.refl, rfl⟩

/-- C8: every handler invocation issues at most two outbound requests, in
a single linear (sequential) trace mirroring the code's awaited calls, and
every outbound request is immediately preceded by the fixed 75 ms
`rate_limit` sleep. -/
theorem c8_at_most_two_delayed_sequential_calls :
    (∀ (i : CardSearchInput) (u : UpstreamResult CardData),
      requestCount (search_card i u).2 ≤ 2 ∧
      delayedRequests (search_card i u).2 = true) ∧
    (∀ (i : CardsSearchInput) (u : UpstreamResult CardListBody),
      requestCount (search_cards i u).2 ≤ 2 ∧
      delayedRequests (search_cards i u).2 = true) ∧
    (∀ (i : CardRulingsInput) (u1 : UpstreamResult CardData)
        (u2 : UpstreamResult RulingsBody),
      requestCount (get_card_rulings i u1 u2).2 ≤ 2 ∧
      delayedRequests (get_card_rulings i u1 u2).2 = true) ∧
    (∀ u : UpstreamResult SetsBody,
      requestCount (get_all_sets u).2 ≤ 2 ∧
      delayedRequests (get_all_sets u).2 = true) ∧
    (∀ u : UpstreamResult SymbologyBody,
      requestCount (get_card_symbols u).2 ≤ 2 ∧
      delayedRequests (get_card_symbols u).2 = true) ∧
    (∀ u : UpstreamResult CardData,
      requestCount (get_random_card u).2 ≤ 2 ∧
      delayedRequests (get_random_card u).2 = true) ∧
    (∀ (i : SingleSetInput) (u : UpstreamResult SetJson),
      requestCount (get_set_details i u).2 ≤ 2 ∧
      delayedRequests (get_set_details i u).2 = true) ∧
    (∀ (i : CatalogInput) (u : UpstreamResult CatalogBody),
      requestCount (get_catalog i u).2 ≤ 2 ∧
      delayedRequests (get_catalog i u).2 = true) ∧
    (∀ (i : ExactCardInput) (u : UpstreamResult CardData),
      requestCount (get_exact_card i u).2 ≤ 2 ∧
      delayedRequests (get_exact_card i u).2 = true) := by
  refine ⟨?_, ?_, ?_, ?_, ?_, ?_, ?_, ?_, ?_⟩
  · exact fun i u => ⟨Nat.le_succ 1, rfl⟩
  · exact fun i u => ⟨Nat.le_succ 1, rfl⟩
  · exact fun i u1 u2 => rulingsTrace_bounded i.scryfall_id u1
  · exact fun u => ⟨Nat.le_succ 1, rfl⟩
  · exact fun u => ⟨Nat.le_succ 1, rfl⟩
  · exact fun u => ⟨Nat.le_succ 1, rfl⟩
  · exact fun i u => ⟨Nat.le_succ 1, rfl⟩
  · exact fun i u => ⟨Nat.le_succ 1, rfl⟩
  · exact fun i u => ⟨Nat.le_succ 1, rfl⟩

/-- C9: whenever any exception occurs during `search_cards`'s outbound
call or response processing (the `try` body raises with any message), the
output is exactly the output produced on an upstream 404: the empty search
result.  A caller cannot distinguish an internal failure from an empty
search result. -/
theorem c9_exception_output_equals_404_output (i : CardsSearchInput)
    (u : UpstreamResult CardListBody) (m : String)
    (b : Except String CardListBody)
    (h : searchCardsTry u = Except.error m) :
    (search_cards i u).1 = (search_cards i (UpstreamResult.resp 404 b)).1 := by
  show runCaught (searchCardsTry u) (fun _ => searchCardsEmpty) = _
  rw [h]
  rfl

/-- C9 witness: a network exception and a 404 produce the same output on a
concrete input. -/
theorem c9_witness :
    (search_cards { query := "q", unique := "cards", order := "name", page := 1 }
        (UpstreamResult.exn "timeout")).1
      = (search_cards { query := "q", unique := "cards", order := "name", page := 1 }
          (UpstreamResult.resp 404 (Except.error "bad json"))).1 :=
  c9_exception_output_equals_404_output _ _ "timeout" _ rfl

/-- C10: for every `get_catalog` input and every outcome (success,
upstream 404, bad status, parse failure or exception), the output's
`catalog_type` equals the input's and `total_items` equals the length of
the output's data list. -/
theorem c10_catalog_invariants (i : CatalogInput) (u : UpstreamResult CatalogBody) :
    (get_catalog i u).1.catalog_type = i.catalog_type ∧
    (get_catalog i u).1.total_items
      = Int.ofNat (get_catalog i u).1.data.length := by
  cases u with
  | exn m => exact ⟨rfl, rfl⟩
  | resp status body =>
    by_cases h4 : status = 404
    · subst h4
      exact ⟨rfl, rfl⟩
    · by_cases hs : 400 ≤ status
      · have hTry : getCatalogTry i.catalog_type (UpstreamResult.resp status body)
            = Except.error (statusErrorMsg status) := by
          simp only [getCatalogTry, if_neg h4, raiseForStatus, if_pos hs]
          rfl
        have hone : (get_catalog i (UpstreamResult.resp status body)).1
            = catalogEmpty i.catalog_type := by
          show runCaught (getCatalogTry i.catalog_type
            (UpstreamResult.resp status body)) _ = _
          rw [hTry]
          rfl
        rw [hone]
        exact ⟨rfl, rfl⟩
      · cases body with
        | error m =>
          have hTry : getCatalogTry i.catalog_type
              (UpstreamResult.resp status (Except.error m)) = Except.error m := by
            simp only [getCatalogTry, if_neg h4, raiseForStatus, if_neg hs]
            rfl
          have hone : (get_catalog i (UpstreamResult.resp status (Except.error m))).1
              = catalogEmpty i.catalog_type := by
            show runCaught (getCatalogTry i.catalog_type
              (UpstreamResult.resp status (Except.error m))) _ = _
            rw [hTry]
            rfl
          rw [hone]
          exact ⟨rfl, rfl⟩
        | ok d =>
          have hTry : getCatalogTry i.catalog_type
              (UpstreamResult.resp status (Except.ok d))
              = Except.ok { catalog_type := i.catalog_type
                          , data := d.data.getD []
                          , total_items := Int.ofNat (d.data.getD []).length } := by
            simp only [getCatalogTry, if_neg h4, raiseForStatus, if_neg hs]
            rfl
          have hone : (get_catalog i (UpstreamResult.resp status (Except.ok d))).1
              = { catalog_type := i.catalog_type
                , data := d.data.getD []
                , total_items := Int.ofNat (d.data.getD []).length } := by
            show runCaught (getCatalogTry i.catalog_type
              (UpstreamResult.resp status (Except.ok d))) _ = _
            rw [hTry]
            rfl
          rw [hone]
          exact ⟨rfl, rfl⟩
